import Mathlib

/-!
Verification of the k-point grid sizing algorithms of the repository
(`src/kgrid.py` and `src/job_control.py`).

The source computes, from the three cell lengths, the cell volume and a
target k-point density, an integer grid `(nx, ny, nz)`.  All source
arithmetic is Python/numpy floating point; following the specification
("in exact real arithmetic") we embed the computation over an arbitrary
linear ordered field with a floor function, so the theorems hold for `ℝ`
while concrete witnesses evaluate the very same definitions over `ℚ`.

The only non-algebraic operation of the source is the cube root
`mult = (kpd / vol * a * b * c) ** (1 / 3)` (kgrid.py line 23).  The
embedding therefore takes `mult` as an explicit argument; theorems that
speak about the whole routine constrain it by the defining equation
`0 ≤ mult ∧ mult ^ 3 = kpd / vol * (a * b * c)`.
-/

namespace AmltPolymorph

variable {α : Type*} [LinearOrderedField α] [FloorRing α]

/-- Model of `np.isclose(a, b)` with numpy default tolerances
`rtol = 1e-5`, `atol = 1e-8`: `|a - b| <= atol + rtol * |b|`. -/
def isclose (a b : α) : Prop :=
  |a - b| ≤ 1 / 100000000 + 1 / 100000 * |b|

instance isclose_decidable (a b : α) : Decidable (isclose a b) := by
  unfold isclose; infer_instance

/-- Model of `np.argsort` on a 3-element array (kgrid.py line 34).
For arrays this small numpy uses insertion sort, which is stable, so
ties keep the original index order; the branches below implement the
stable ascending sort of the three values. -/
def argsort3 (d : Fin 3 → α) : Fin 3 → Fin 3 :=
  if d 0 ≤ d 1 then
    if d 1 ≤ d 2 then ![0, 1, 2]
    else if d 0 ≤ d 2 then ![0, 2, 1]
    else ![2, 0, 1]
  else
    if d 0 ≤ d 2 then ![1, 0, 2]
    else if d 1 ≤ d 2 then ![1, 2, 0]
    else ![2, 1, 0]

/-- One in-place increment `nkpt[j] = nkpt[j] + s` (kgrid.py lines 41-63). -/
def bump (n : Fin 3 → ℤ) (j : Fin 3) (s : ℤ) : Fin 3 → ℤ :=
  Function.update n j (n j + s)

/-- `actual_kpd = vol * nkpt[0] * nkpt[1] * nkpt[2]` (kgrid.py line 32). -/
def actualKpd (vol : α) (n : Fin 3 → ℤ) : α :=
  vol * ((n 0 : α) * (n 1 : α) * (n 2 : α))

/-- The trailing loop of the solvers (kgrid.py lines 62-65):
`while actual_kpd < kpd and i <= 2: nkpt[check_order[i]] += step; i += 1`.
The loop body runs at most three times (`i` increases and is bounded by 2),
so a fuel of `3` at the call sites makes the recursion structural without
ever cutting an iteration short. -/
def whileLoop (vol kpd : α) (s : ℤ) (ord : Fin 3 → Fin 3) :
    ℕ → ℕ → (Fin 3 → ℤ) → Fin 3 → ℤ
  | 0, _, n => n
  | fuel + 1, i, n =>
    if h : actualKpd vol n < kpd ∧ i ≤ 2 then
      whileLoop vol kpd s ord fuel (i + 1)
        (bump n (ord ⟨i, Nat.lt_succ_of_le h.2⟩) s)
    else n

/-- `step = 2 if only_even else 1` (kgrid.py lines 8-11). -/
def stepOf (only_even : Bool) : ℤ :=
  if only_even then 2 else 1

/-- `nkpt_frac[i] = max(mult / l, step)` (kgrid.py lines 25-27). -/
def nkpt_frac (lengths : Fin 3 → α) (mult : α) (s : ℤ) : Fin 3 → α :=
  fun i => max (mult / lengths i) (s : α)

/-- `nkpt = np.floor(nkpt_frac / step) * step` (kgrid.py line 29). -/
def nkptOf (frac : Fin 3 → α) (s : ℤ) : Fin 3 → ℤ :=
  fun i => ⌊frac i / (s : α)⌋ * s

/-- `delta_ceil = np.ceil(nkpt_frac / step) * step - nkpt_frac`
(kgrid.py line 30). -/
def delta_ceil (frac : Fin 3 → α) (s : ℤ) : Fin 3 → α :=
  fun i => ((⌈frac i / (s : α)⌉ * s : ℤ) : α) - frac i

/-- The tie-aware repair pass (kgrid.py lines 37-60): starting from the
floored grid it decides, from the approximate equalities between the
fractional counts taken in `check_order`, which axes to increment by
`step`, and returns the updated grid together with the loop index `i`
reached by the source, which is where the trailing while loop resumes. -/
def repair (vol kpd : α) (s : ℤ) (frac : Fin 3 → α) (n : Fin 3 → ℤ)
    (o : Fin 3 → Fin 3) : ℕ × (Fin 3 → ℤ) :=
  if actualKpd vol n < kpd then
    if isclose (frac (o 0)) (frac (o 1)) ∧ isclose (frac (o 1)) (frac (o 2)) then
      (3, bump (bump (bump n (o 0) s) (o 1) s) (o 2) s)
    else if isclose (frac (o 0)) (frac (o 1)) then
      (2, bump (bump n (o 0) s) (o 1) s)
    else if isclose (frac (o 1)) (frac (o 2)) then
      (3, if actualKpd vol (bump n (o 0) s) < kpd then
            bump (bump (bump n (o 0) s) (o 1) s) (o 2) s
          else bump n (o 0) s)
    else (0, n)
  else (0, n)

namespace Kgrid

/-- `get_kpts_from_kpd` (kgrid.py lines 4-74).  The reciprocal-cell
lengths (lines 13-14) and the `show_kpts` printing (lines 69-73) do not
influence the returned grid and are omitted; the dead `if False` branch
(lines 20-21) is omitted as well.  `mult` stands for the cube root
computed on line 23 (see the file comment), and the final
`int(nkpt[i])` conversion on line 67 is the identity because every
entry of `nkpt` is an exact integer multiple of `step` here. -/
def get_kpts_from_kpd (lengths : Fin 3 → α) (vol kpd mult : α)
    (only_even : Bool) : Fin 3 → ℤ :=
  let s := stepOf only_even
  let frac := nkpt_frac lengths mult s
  let n := nkptOf frac s
  let o := argsort3 (delta_ceil frac s)
  let st := repair vol kpd s frac n o
  whileLoop vol kpd s o 3 st.1 st.2

/-- `safe_kgrid_from_cell_volume` (kgrid.py lines 81-132).  Identical to
`get_kpts_from_kpd` except that the step is hard-coded to 1:
`nkpt_frac[i] = max(mult / l, 1)`, `nkpt = np.floor(nkpt_frac)`,
`delta_ceil = np.ceil(nkpt_frac) - nkpt_frac`, and every increment is
by 1.  The branch structure (lines 102-129) is the text of `repair` and
the trailing while loop with `s = 1`. -/
def safe_kgrid_from_cell_volume (lengths : Fin 3 → α) (vol kpd mult : α) :
    Fin 3 → ℤ :=
  let frac : Fin 3 → α := fun i => max (mult / lengths i) 1
  let n : Fin 3 → ℤ := fun i => ⌊frac i⌋
  let d : Fin 3 → α := fun i => ((⌈frac i⌉ : ℤ) : α) - frac i
  let o := argsort3 d
  let st := repair vol kpd 1 frac n o
  whileLoop vol kpd 1 o 3 st.1 st.2

/-- `num_divf = [int(math.floor(max(mult / l, 1))) for l in lengths]`
(kgrid.py line 148). -/
def num_divf (lengths : Fin 3 → α) (mult : α) : Fin 3 → ℤ :=
  fun i => ⌊max (mult / lengths i) 1⌋

/-- `num_divc = [int(math.ceil(mult / l)) for l in lengths]`
(kgrid.py line 153); note the ceiled candidate has no floor of 1. -/
def num_divc (lengths : Fin 3 → α) (mult : α) : Fin 3 → ℤ :=
  fun i => ⌈mult / lengths i⌉

/-- `kpdf = vol * num_divf[0] * num_divf[1] * num_divf[2]` (line 149). -/
def kpdf (lengths : Fin 3 → α) (vol mult : α) : α :=
  actualKpd vol (num_divf lengths mult)

/-- `kpdc = vol * num_divc[0] * num_divc[1] * num_divc[2]` (line 154). -/
def kpdc (lengths : Fin 3 → α) (vol mult : α) : α :=
  actualKpd vol (num_divc lengths mult)

/-- `errorf = abs(kpd - kpdf) / kpdf` (kgrid.py line 150). -/
def errorf (lengths : Fin 3 → α) (vol kpd mult : α) : α :=
  |kpd - kpdf lengths vol mult| / kpdf lengths vol mult

/-- `errorc = abs(kpd - kpdc) / kpdc` (kgrid.py line 155). -/
def errorc (lengths : Fin 3 → α) (vol kpd mult : α) : α :=
  |kpd - kpdc lengths vol mult| / kpdc lengths vol mult

/-- `kgrid_from_cell_volume` (kgrid.py lines 138-163): pick the all-ceil
candidate exactly when its error is strictly smaller (line 157). -/
def kgrid_from_cell_volume (lengths : Fin 3 → α) (vol kpd mult : α) :
    Fin 3 → ℤ :=
  if errorc lengths vol kpd mult < errorf lengths vol kpd mult then
    num_divc lengths mult
  else
    num_divf lengths mult

end Kgrid

namespace JobControl

/-- `safe_kgrid_from_cell_volume` (job_control.py lines 145-196); the
source text is the same, token for token, as kgrid.py lines 81-132. -/
def safe_kgrid_from_cell_volume (lengths : Fin 3 → α) (vol kpd mult : α) :
    Fin 3 → ℤ :=
  let frac : Fin 3 → α := fun i => max (mult / lengths i) 1
  let n : Fin 3 → ℤ := fun i => ⌊frac i⌋
  let d : Fin 3 → α := fun i => ((⌈frac i⌉ : ℤ) : α) - frac i
  let o := argsort3 d
  let st := repair vol kpd 1 frac n o
  whileLoop vol kpd 1 o 3 st.1 st.2

/-- `kgrid_from_cell_volume` (job_control.py lines 199-224), the same
text as kgrid.py lines 138-163. -/
def kgrid_from_cell_volume (lengths : Fin 3 → α) (vol kpd mult : α) :
    Fin 3 → ℤ :=
  if Kgrid.errorc lengths vol kpd mult < Kgrid.errorf lengths vol kpd mult then
    Kgrid.num_divc lengths mult
  else
    Kgrid.num_divf lengths mult

end JobControl

/-! ### Structural lemmas about the shared solver body -/

lemma stepOf_pos (oe : Bool) : 0 < stepOf oe := by
  cases oe <;> norm_num [stepOf]

lemma one_le_stepOf (oe : Bool) : (1 : ℤ) ≤ stepOf oe := by
  cases oe <;> norm_num [stepOf]

lemma bump_same (n : Fin 3 → ℤ) (j : Fin 3) (s : ℤ) : bump n j s j = n j + s := by
  unfold bump; exact Function.update_same j (n j + s) n

lemma bump_noteq {x j : Fin 3} (h : x ≠ j) (n : Fin 3 → ℤ) (s : ℤ) :
    bump n j s x = n x := by
  unfold bump; exact Function.update_noteq h (n j + s) n

lemma fin3_cases (j : Fin 3) : j = 0 ∨ j = 1 ∨ j = 2 := by
  revert j; decide

lemma argsort3_injective (d : Fin 3 → α) : Function.Injective (argsort3 d) := by
  unfold argsort3
  split_ifs <;> decide

lemma argsort3_surjective (d : Fin 3 → α) : Function.Surjective (argsort3 d) :=
  Finite.injective_iff_surjective.mp (argsort3_injective d)

lemma whileLoop_stop {vol kpd : α} {s : ℤ} {ord : Fin 3 → Fin 3}
    {n : Fin 3 → ℤ} (h : ¬ actualKpd vol n < kpd) (fuel i : ℕ) :
    whileLoop vol kpd s ord fuel i n = n := by
  cases fuel with
  | zero => rfl
  | succ fuel => exact dif_neg (fun hc => h hc.1)

lemma whileLoop_i3 {vol kpd : α} {s : ℤ} {ord : Fin 3 → Fin 3}
    (n : Fin 3 → ℤ) (fuel : ℕ) :
    whileLoop vol kpd s ord fuel 3 n = n := by
  cases fuel with
  | zero => rfl
  | succ fuel => exact dif_neg (fun hc => by omega)

lemma whileLoop_step {vol kpd : α} {s : ℤ} {ord : Fin 3 → Fin 3}
    {n : Fin 3 → ℤ} {i : ℕ} (fuel : ℕ)
    (h : actualKpd vol n < kpd) (hi : i ≤ 2) :
    whileLoop vol kpd s ord (fuel + 1) i n =
      whileLoop vol kpd s ord fuel (i + 1)
        (bump n (ord ⟨i, Nat.lt_succ_of_le hi⟩) s) :=
  dif_pos ⟨h, hi⟩

/-- Applying the three increments along an injective order bumps every
axis exactly once. -/
lemma bump3_apply {o : Fin 3 → Fin 3} (ho : Function.Injective o)
    (n : Fin 3 → ℤ) (s : ℤ) (x : Fin 3) :
    bump (bump (bump n (o 0) s) (o 1) s) (o 2) s x = n x + s := by
  have h01 : o 0 ≠ o 1 := fun h => absurd (ho h) (by decide)
  have h02 : o 0 ≠ o 2 := fun h => absurd (ho h) (by decide)
  have h12 : o 1 ≠ o 2 := fun h => absurd (ho h) (by decide)
  obtain ⟨j, rfl⟩ := Finite.injective_iff_surjective.mp ho x
  rcases fin3_cases j with rfl | rfl | rfl
  · rw [bump_noteq h02, bump_noteq h01, bump_same]
  · rw [bump_noteq h12, bump_same, bump_noteq (Ne.symm h01)]
  · rw [bump_same, bump_noteq (Ne.symm h12), bump_noteq (Ne.symm h02)]

/-- The trailing while loop changes each axis by either nothing or one
step, and it only bumps axes that still sit at their reference value. -/
lemma whileLoop_shape (vol kpd : α) (s : ℤ) (hs : s ≠ 0) (o : Fin 3 → Fin 3)
    (ho : Function.Injective o) (g : Fin 3 → ℤ) :
    ∀ (fuel i : ℕ) (n : Fin 3 → ℤ),
      (∀ j : Fin 3, i ≤ j.val → n (o j) = g (o j)) →
      ∀ x, whileLoop vol kpd s o fuel i n x = n x ∨
        (whileLoop vol kpd s o fuel i n x = n x + s ∧ n x = g x) := by
  intro fuel
  induction fuel with
  | zero => intro i n _ x; exact Or.inl rfl
  | succ fuel ih =>
    intro i n hn x
    by_cases h : actualKpd vol n < kpd ∧ i ≤ 2
    · rw [whileLoop, dif_pos h]
      have hi3 : i < 3 := Nat.lt_succ_of_le h.2
      have hji : (⟨i, hi3⟩ : Fin 3).val = i := rfl
      have hrec : ∀ j : Fin 3, i + 1 ≤ j.val →
          bump n (o ⟨i, hi3⟩) s (o j) = g (o j) := by
        intro j hj
        have hne : o j ≠ o ⟨i, hi3⟩ := by
          intro he
          have := ho he
          have : j.val = i := by rw [this]
          omega
        rw [bump_noteq hne]
        exact hn j (by omega)
      rcases ih (i + 1) (bump n (o ⟨i, hi3⟩) s) hrec x with hx | ⟨hx1, hx2⟩
      · by_cases hxj : x = o ⟨i, hi3⟩
        · subst hxj
          rw [bump_same] at hx
          exact Or.inr ⟨hx, hn ⟨i, hi3⟩ (le_of_eq hji.symm)⟩
        · rw [bump_noteq hxj] at hx
          exact Or.inl hx
      · by_cases hxj : x = o ⟨i, hi3⟩
        · subst hxj
          rw [bump_same] at hx2
          have := hn ⟨i, hi3⟩ (le_of_eq hji.symm)
          omega
        · rw [bump_noteq hxj] at hx1 hx2
          exact Or.inr ⟨hx1, hx2⟩
    · rw [whileLoop, dif_neg h]
      exact Or.inl rfl

/-- If the grid with every axis bumped once meets the target, the
trailing while loop always ends at or above the target: it either stops
because the target is already met, or it runs until every axis has been
bumped. -/
lemma whileLoop_meets (vol kpd : α) (s : ℤ) (o : Fin 3 → Fin 3)
    (ho : Function.Injective o) (g : Fin 3 → ℤ)
    (Hfull : kpd ≤ actualKpd vol (fun x => g x + s)) :
    ∀ (fuel i : ℕ) (n : Fin 3 → ℤ), 3 ≤ i + fuel →
      (∀ j : Fin 3, (i ≤ j.val → n (o j) = g (o j)) ∧
        (j.val < i → n (o j) = g (o j) + s)) →
      kpd ≤ actualKpd vol (whileLoop vol kpd s o fuel i n) := by
  have hsurj := Finite.injective_iff_surjective.mp ho
  intro fuel
  induction fuel with
  | zero =>
    intro i n hif hn
    have hall : n = fun x => g x + s := by
      funext x
      obtain ⟨j, rfl⟩ := hsurj x
      exact (hn j).2 (by omega)
    show kpd ≤ actualKpd vol n
    rw [hall]; exact Hfull
  | succ fuel ih =>
    intro i n hif hn
    by_cases h : actualKpd vol n < kpd ∧ i ≤ 2
    · rw [whileLoop, dif_pos h]
      have hi3 : i < 3 := Nat.lt_succ_of_le h.2
      refine ih (i + 1) _ (by omega) ?_
      intro j
      constructor
      · intro hj
        have hne : o j ≠ o ⟨i, hi3⟩ := by
          intro he
          have := ho he
          have : j.val = i := by rw [this]
          omega
        rw [bump_noteq hne]
        exact (hn j).1 (by omega)
      · intro hj
        by_cases hji : j = (⟨i, hi3⟩ : Fin 3)
        · subst hji
          rw [bump_same, (hn _).1 (le_refl _)]
        · have hne : o j ≠ o ⟨i, hi3⟩ := fun he => hji (ho he)
          rw [bump_noteq hne]
          have hjlt : j.val < i := by
            rcases Nat.lt_succ_iff_lt_or_eq.mp hj with h' | h'
            · exact h'
            · exact absurd (Fin.ext h') hji
          exact (hn j).2 hjlt
    · rw [whileLoop, dif_neg h]
      rcases not_and_or.mp h with h' | h'
      · exact le_of_not_lt h'
      · have hall : n = fun x => g x + s := by
          funext x
          obtain ⟨j, rfl⟩ := hsurj x
          exact (hn j).2 (by omega)
        rw [hall]; exact Hfull

lemma inj3_ne {o : Fin 3 → Fin 3} (ho : Function.Injective o) :
    o 0 ≠ o 1 ∧ o 0 ≠ o 2 ∧ o 1 ≠ o 2 :=
  ⟨fun h => absurd (ho h) (by decide), fun h => absurd (ho h) (by decide),
    fun h => absurd (ho h) (by decide)⟩

/-- The repair pass followed by the trailing while loop changes each
axis by either nothing or exactly one step. -/
lemma repair_then_loop_shape (vol kpd : α) (s : ℤ) (hs : s ≠ 0)
    (F : Fin 3 → α) (n : Fin 3 → ℤ) (o : Fin 3 → Fin 3)
    (ho : Function.Injective o) (x : Fin 3) :
    whileLoop vol kpd s o 3 (repair vol kpd s F n o).1
        (repair vol kpd s F n o).2 x = n x ∨
      whileLoop vol kpd s o 3 (repair vol kpd s F n o).1
        (repair vol kpd s F n o).2 x = n x + s := by
  obtain ⟨h01, h02, h12⟩ := inj3_ne ho
  have hb2 : ∀ y, bump (bump n (o 0) s) (o 1) s y = n y ∨
      bump (bump n (o 0) s) (o 1) s y = n y + s := by
    intro y
    by_cases hy0 : y = o 0
    · subst hy0
      rw [bump_noteq h01, bump_same]; exact Or.inr rfl
    · by_cases hy1 : y = o 1
      · subst hy1
        rw [bump_same, bump_noteq (Ne.symm h01)]; exact Or.inr rfl
      · rw [bump_noteq hy1, bump_noteq hy0]; exact Or.inl rfl
  have hplain : whileLoop vol kpd s o 3 0 n x = n x ∨
      whileLoop vol kpd s o 3 0 n x = n x + s := by
    have hinv : ∀ j : Fin 3, 0 ≤ j.val → n (o j) = n (o j) := fun _ _ => rfl
    rcases whileLoop_shape vol kpd s hs o ho n 3 0 n hinv x with hx | ⟨hx1, _⟩
    · exact Or.inl hx
    · exact Or.inr hx1
  unfold repair
  split_ifs with hac hc1 hc2 hc3 hac2 <;> dsimp only
  · -- all three fractional counts close: all axes bumped, loop index 3
    rw [whileLoop_i3]
    exact Or.inr (bump3_apply ho n s x)
  · -- the two closest-ranked close: two bumps, loop resumes at index 2
    have hinv : ∀ j : Fin 3, 2 ≤ j.val →
        bump (bump n (o 0) s) (o 1) s (o j) = n (o j) := by
      intro j hj
      rcases fin3_cases j with rfl | rfl | rfl
      · simp at hj
      · simp at hj
      · rw [bump_noteq (Ne.symm h12), bump_noteq (Ne.symm h02)]
    rcases whileLoop_shape vol kpd s hs o ho n 3 2 _ hinv x with hx | ⟨hx1, hx2⟩
    · rcases hb2 x with h | h
      · exact Or.inl (hx.trans h)
      · exact Or.inr (hx.trans h)
    · rw [hx2] at hx1
      exact Or.inr hx1
  · -- two farthest-ranked close and one bump does not reach target
    rw [whileLoop_i3]
    exact Or.inr (bump3_apply ho n s x)
  · -- two farthest-ranked close and one bump reaches target
    rw [whileLoop_i3]
    by_cases hy0 : x = o 0
    · subst hy0; rw [bump_same]; exact Or.inr rfl
    · rw [bump_noteq hy0]; exact Or.inl rfl
  · -- no approximate equalities: loop from index 0
    exact hplain
  · -- initial grid already meets the target: loop exits immediately
    exact hplain

/-- If the grid with every axis bumped once meets the target, the repair
pass followed by the trailing while loop meets the target. -/
lemma repair_then_loop_meets (vol kpd : α) (s : ℤ) (F : Fin 3 → α)
    (n : Fin 3 → ℤ) (o : Fin 3 → Fin 3) (ho : Function.Injective o)
    (Hfull : kpd ≤ actualKpd vol (fun x => n x + s)) :
    kpd ≤ actualKpd vol
      (whileLoop vol kpd s o 3 (repair vol kpd s F n o).1
        (repair vol kpd s F n o).2) := by
  obtain ⟨h01, h02, h12⟩ := inj3_ne ho
  have hplain : kpd ≤ actualKpd vol (whileLoop vol kpd s o 3 0 n) := by
    refine whileLoop_meets vol kpd s o ho n Hfull 3 0 n (by omega) ?_
    intro j
    exact ⟨fun _ => rfl, fun hj => absurd hj (by omega)⟩
  unfold repair
  split_ifs with hac hc1 hc2 hc3 hac2 <;> dsimp only
  · -- all bumped, i = 3
    rw [whileLoop_i3]
    have : (bump (bump (bump n (o 0) s) (o 1) s) (o 2) s) =
        fun x => n x + s := funext (bump3_apply ho n s)
    rw [this]; exact Hfull
  · -- two bumped, loop resumes at index 2
    refine whileLoop_meets vol kpd s o ho n Hfull 3 2 _ (by omega) ?_
    intro j
    constructor
    · intro hj
      rcases fin3_cases j with rfl | rfl | rfl
      · simp at hj
      · simp at hj
      · rw [bump_noteq (Ne.symm h12), bump_noteq (Ne.symm h02)]
    · intro hj
      rcases fin3_cases j with rfl | rfl | rfl
      · rw [bump_noteq h01, bump_same]
      · rw [bump_same, bump_noteq (Ne.symm h01)]
      · simp at hj
  · -- two farthest-ranked close, one bump short of target: all bumped
    rw [whileLoop_i3]
    have : (bump (bump (bump n (o 0) s) (o 1) s) (o 2) s) =
        fun x => n x + s := funext (bump3_apply ho n s)
    rw [this]; exact Hfull
  · -- two farthest-ranked close, one bump reached the target
    rw [whileLoop_i3]
    exact le_of_not_lt hac2
  · -- no equalities: plain loop from index 0
    exact hplain
  · -- already above target
    exact hplain

/-- Lower and upper bound for the floored grid entries. -/
lemma nkptOf_bounds (F : Fin 3 → α) (s : ℤ) (h1s : (1 : ℤ) ≤ s)
    (hFs : ∀ i, (s : α) ≤ F i) (i : Fin 3) :
    s ≤ nkptOf F s i ∧ F i < ((nkptOf F s i + s : ℤ) : α) := by
  have hs0 : (0 : α) < (s : α) := by
    have : (0 : ℤ) < s := lt_of_lt_of_le one_pos h1s
    exact_mod_cast this
  constructor
  · have hdiv : (1 : α) ≤ F i / (s : α) := (one_le_div hs0).mpr (hFs i)
    have hfl : (1 : ℤ) ≤ ⌊F i / (s : α)⌋ := by
      rw [Int.le_floor]; exact_mod_cast hdiv
    have := mul_le_mul_of_nonneg_right hfl (le_of_lt (lt_of_lt_of_le one_pos h1s))
    simpa [nkptOf] using this
  · have h1 : F i / (s : α) < (⌊F i / (s : α)⌋ : α) + 1 := Int.lt_floor_add_one _
    have h2 : F i < ((⌊F i / (s : α)⌋ : α) + 1) * (s : α) := (div_lt_iff₀ hs0).mp h1
    calc F i < ((⌊F i / (s : α)⌋ : α) + 1) * (s : α) := h2
      _ = ((nkptOf F s i + s : ℤ) : α) := by unfold nkptOf; push_cast; ring

/-- If the target is below the volume times the product of the
fractional counts, then the grid with every axis bumped once meets the
target. -/
lemma full_bump_meets (vol kpd : α) (s : ℤ) (h1s : (1 : ℤ) ≤ s)
    (hvol : 0 < vol) (F : Fin 3 → α) (hFs : ∀ i, (s : α) ≤ F i)
    (hprod : kpd ≤ vol * (F 0 * F 1 * F 2)) :
    kpd ≤ actualKpd vol (fun x => nkptOf F s x + s) := by
  have hs0 : (0 : α) < (s : α) := by
    have : (0 : ℤ) < s := lt_of_lt_of_le one_pos h1s
    exact_mod_cast this
  have hFpos : ∀ i, 0 < F i := fun i => lt_of_lt_of_le hs0 (hFs i)
  have hlt : ∀ i, F i ≤ ((nkptOf F s i + s : ℤ) : α) :=
    fun i => le_of_lt (nkptOf_bounds F s h1s hFs i).2
  show kpd ≤ vol * (((nkptOf F s 0 + s : ℤ) : α) * ((nkptOf F s 1 + s : ℤ) : α) *
      ((nkptOf F s 2 + s : ℤ) : α))
  calc kpd ≤ vol * (F 0 * F 1 * F 2) := hprod
    _ ≤ vol * (((nkptOf F s 0 + s : ℤ) : α) * ((nkptOf F s 1 + s : ℤ) : α) *
        ((nkptOf F s 2 + s : ℤ) : α)) := by
        apply mul_le_mul_of_nonneg_left _ (le_of_lt hvol)
        apply mul_le_mul (mul_le_mul (hlt 0) (hlt 1)
          (le_of_lt (hFpos 1)) (le_trans (le_of_lt (hFpos 0)) (hlt 0)))
          (hlt 2) (le_of_lt (hFpos 2))
        exact mul_nonneg (le_trans (le_of_lt (hFpos 0)) (hlt 0))
          (le_trans (le_of_lt (hFpos 1)) (hlt 1))

/-- Each component of the returned grid is the floored count or the
floored count plus one step. -/
lemma get_kpts_shape (lengths : Fin 3 → α) (vol kpd mult : α) (oe : Bool)
    (x : Fin 3) :
    Kgrid.get_kpts_from_kpd lengths vol kpd mult oe x
        = nkptOf (nkpt_frac lengths mult (stepOf oe)) (stepOf oe) x ∨
      Kgrid.get_kpts_from_kpd lengths vol kpd mult oe x
        = nkptOf (nkpt_frac lengths mult (stepOf oe)) (stepOf oe) x
          + stepOf oe :=
  repair_then_loop_shape vol kpd (stepOf oe) (ne_of_gt (stepOf_pos oe))
    (nkpt_frac lengths mult (stepOf oe))
    (nkptOf (nkpt_frac lengths mult (stepOf oe)) (stepOf oe))
    (argsort3 (delta_ceil (nkpt_frac lengths mult (stepOf oe)) (stepOf oe)))
    (argsort3_injective _) x

/-- Under the defining equation of `mult`, the volume times the product
of the fractional counts is at least the target density. -/
lemma kpd_le_frac_prod (lengths : Fin 3 → α) (vol kpd mult : α) (s : ℤ)
    (hl : ∀ i, 0 < lengths i) (hv : 0 < vol) (hm : 0 ≤ mult)
    (hc : mult ^ 3 = kpd / vol * (lengths 0 * lengths 1 * lengths 2)) :
    kpd ≤ vol * (nkpt_frac lengths mult s 0 * nkpt_frac lengths mult s 1 *
      nkpt_frac lengths mult s 2) := by
  have hub : ∀ i, mult / lengths i ≤ nkpt_frac lengths mult s i :=
    fun i => le_max_left _ _
  have hnn : ∀ i, 0 ≤ mult / lengths i :=
    fun i => div_nonneg hm (le_of_lt (hl i))
  have hprod : (mult / lengths 0) * (mult / lengths 1) * (mult / lengths 2) ≤
      nkpt_frac lengths mult s 0 * nkpt_frac lengths mult s 1 *
        nkpt_frac lengths mult s 2 :=
    mul_le_mul (mul_le_mul (hub 0) (hub 1) (hnn 1)
        (le_trans (hnn 0) (hub 0))) (hub 2) (hnn 2)
      (mul_nonneg (le_trans (hnn 0) (hub 0)) (le_trans (hnn 1) (hub 1)))
  have hL : (0 : α) < lengths 0 * lengths 1 * lengths 2 :=
    mul_pos (mul_pos (hl 0) (hl 1)) (hl 2)
  have hmv : mult ^ 3 * vol = kpd * (lengths 0 * lengths 1 * lengths 2) := by
    rw [hc]; field_simp
  have hkey : (mult / lengths 0) * (mult / lengths 1) * (mult / lengths 2) =
      kpd / vol := by
    rw [div_mul_div_comm, div_mul_div_comm,
      div_eq_div_iff (ne_of_gt hL) (ne_of_gt hv)]
    calc mult * mult * mult * vol = mult ^ 3 * vol := by ring
      _ = kpd * (lengths 0 * lengths 1 * lengths 2) := hmv
  calc kpd = vol * (kpd / vol) := by field_simp
    _ = vol * ((mult / lengths 0) * (mult / lengths 1) * (mult / lengths 2)) := by
        rw [hkey]
    _ ≤ vol * (nkpt_frac lengths mult s 0 * nkpt_frac lengths mult s 1 *
        nkpt_frac lengths mult s 2) :=
      mul_le_mul_of_nonneg_left hprod (le_of_lt hv)

/-- The solver unfolded into its pipeline of helper definitions. -/
lemma get_kpts_as_pipeline (lengths : Fin 3 → α) (vol kpd mult : α)
    (oe : Bool) :
    Kgrid.get_kpts_from_kpd lengths vol kpd mult oe =
      whileLoop vol kpd (stepOf oe)
        (argsort3 (delta_ceil (nkpt_frac lengths mult (stepOf oe)) (stepOf oe))) 3
        (repair vol kpd (stepOf oe) (nkpt_frac lengths mult (stepOf oe))
          (nkptOf (nkpt_frac lengths mult (stepOf oe)) (stepOf oe))
          (argsort3 (delta_ceil (nkpt_frac lengths mult (stepOf oe)) (stepOf oe)))).1
        (repair vol kpd (stepOf oe) (nkpt_frac lengths mult (stepOf oe))
          (nkptOf (nkpt_frac lengths mult (stepOf oe)) (stepOf oe))
          (argsort3 (delta_ceil (nkpt_frac lengths mult (stepOf oe)) (stepOf oe)))).2 :=
  rfl

lemma whileLoop_start_step {vol kpd : α} {s : ℤ} {ord : Fin 3 → Fin 3}
    {n : Fin 3 → ℤ} (h : actualKpd vol n < kpd) :
    whileLoop vol kpd s ord 3 0 n =
      whileLoop vol kpd s ord 2 1 (bump n (ord 0) s) := by
  show whileLoop vol kpd s ord (2 + 1) 0 n = _
  rw [whileLoop_step 2 h (by norm_num)]
  rfl

/-- Evaluation rule: target missed by the floored grid, no approximate
equalities, and one bump of the nearest-ranked axis reaches the target. -/
lemma get_kpts_eval_single_bump (lengths : Fin 3 → α) (vol kpd mult : α)
    (oe : Bool)
    (hac : actualKpd vol
      (nkptOf (nkpt_frac lengths mult (stepOf oe)) (stepOf oe)) < kpd)
    (h01 : ¬ isclose
      (nkpt_frac lengths mult (stepOf oe)
        (argsort3 (delta_ceil (nkpt_frac lengths mult (stepOf oe)) (stepOf oe)) 0))
      (nkpt_frac lengths mult (stepOf oe)
        (argsort3 (delta_ceil (nkpt_frac lengths mult (stepOf oe)) (stepOf oe)) 1)))
    (h12 : ¬ isclose
      (nkpt_frac lengths mult (stepOf oe)
        (argsort3 (delta_ceil (nkpt_frac lengths mult (stepOf oe)) (stepOf oe)) 1))
      (nkpt_frac lengths mult (stepOf oe)
        (argsort3 (delta_ceil (nkpt_frac lengths mult (stepOf oe)) (stepOf oe)) 2)))
    (hstop : ¬ actualKpd vol
      (bump (nkptOf (nkpt_frac lengths mult (stepOf oe)) (stepOf oe))
        (argsort3 (delta_ceil (nkpt_frac lengths mult (stepOf oe)) (stepOf oe)) 0)
        (stepOf oe)) < kpd) :
    Kgrid.get_kpts_from_kpd lengths vol kpd mult oe =
      bump (nkptOf (nkpt_frac lengths mult (stepOf oe)) (stepOf oe))
        (argsort3 (delta_ceil (nkpt_frac lengths mult (stepOf oe)) (stepOf oe)) 0)
        (stepOf oe) := by
  rw [get_kpts_as_pipeline]
  unfold repair
  rw [if_pos hac, if_neg (fun hh => h01 hh.1), if_neg h01, if_neg h12]
  dsimp only
  rw [whileLoop_start_step hac]
  exact whileLoop_stop hstop 2 1

/-- With a constant fractional count, the pipeline returns a constant
grid: the stable sort is the identity, a count is approximately equal to
itself, so either nothing is bumped or all three axes are. -/
lemma pipeline_const_result (vol kpd : α) (s : ℤ) (c : α) (x y : Fin 3) :
    whileLoop vol kpd s (argsort3 (delta_ceil (fun _ => c) s)) 3
      (repair vol kpd s (fun _ => c) (nkptOf (fun _ => c) s)
        (argsort3 (delta_ceil (fun _ => c) s))).1
      (repair vol kpd s (fun _ => c) (nkptOf (fun _ => c) s)
        (argsort3 (delta_ceil (fun _ => c) s))).2 x =
    whileLoop vol kpd s (argsort3 (delta_ceil (fun _ => c) s)) 3
      (repair vol kpd s (fun _ => c) (nkptOf (fun _ => c) s)
        (argsort3 (delta_ceil (fun _ => c) s))).1
      (repair vol kpd s (fun _ => c) (nkptOf (fun _ => c) s)
        (argsort3 (delta_ceil (fun _ => c) s))).2 y := by
  have hinj : Function.Injective (argsort3 (delta_ceil (fun _ => c) s)) :=
    argsort3_injective _
  have hcc : isclose c c := by
    unfold isclose
    rw [sub_self, abs_zero]
    positivity
  by_cases hac : actualKpd vol (nkptOf (fun _ => c) s) < kpd
  · have hrep : repair vol kpd s (fun _ => c) (nkptOf (fun _ => c) s)
        (argsort3 (delta_ceil (fun _ => c) s)) =
        (3, bump (bump (bump (nkptOf (fun _ => c) s)
          (argsort3 (delta_ceil (fun _ => c) s) 0) s)
          (argsort3 (delta_ceil (fun _ => c) s) 1) s)
          (argsort3 (delta_ceil (fun _ => c) s) 2) s) := by
      unfold repair
      rw [if_pos hac, if_pos (⟨hcc, hcc⟩ :
        isclose ((fun _ => c) (argsort3 (delta_ceil (fun _ => c) s) 0))
            ((fun _ => c) (argsort3 (delta_ceil (fun _ => c) s) 1)) ∧
          isclose ((fun _ => c) (argsort3 (delta_ceil (fun _ => c) s) 1))
            ((fun _ => c) (argsort3 (delta_ceil (fun _ => c) s) 2)))]
    rw [hrep]
    have hres : whileLoop vol kpd s (argsort3 (delta_ceil (fun _ => c) s)) 3 3
        (bump (bump (bump (nkptOf (fun _ => c) s)
          (argsort3 (delta_ceil (fun _ => c) s) 0) s)
          (argsort3 (delta_ceil (fun _ => c) s) 1) s)
          (argsort3 (delta_ceil (fun _ => c) s) 2) s) =
        bump (bump (bump (nkptOf (fun _ => c) s)
          (argsort3 (delta_ceil (fun _ => c) s) 0) s)
          (argsort3 (delta_ceil (fun _ => c) s) 1) s)
          (argsort3 (delta_ceil (fun _ => c) s) 2) s := whileLoop_i3 _ 3
    rw [hres, bump3_apply hinj, bump3_apply hinj]
    rfl
  · have hrep : repair vol kpd s (fun _ => c) (nkptOf (fun _ => c) s)
        (argsort3 (delta_ceil (fun _ => c) s)) =
        (0, nkptOf (fun _ => c) s) := by
      unfold repair
      rw [if_neg hac]
    rw [hrep]
    rw [whileLoop_stop hac]
    rfl

/-- With target density zero the solver performs no division by zero,
misses no guard, and returns the grid of all steps. -/
lemma get_kpts_zero_kpd (lengths : Fin 3 → α) (vol : α) (oe : Bool)
    (hv : 0 < vol) :
    Kgrid.get_kpts_from_kpd lengths vol 0 0 oe = fun _ => stepOf oe := by
  have hs0 : (0 : α) < ((stepOf oe : ℤ) : α) := by
    have := stepOf_pos oe
    exact_mod_cast this
  have hF : nkpt_frac lengths 0 (stepOf oe) = fun _ => ((stepOf oe : ℤ) : α) := by
    funext i
    unfold nkpt_frac
    rw [zero_div]
    exact max_eq_right (le_of_lt hs0)
  have hN : nkptOf (fun _ => ((stepOf oe : ℤ) : α)) (stepOf oe) =
      fun _ => stepOf oe := by
    funext i
    unfold nkptOf
    rw [div_self (ne_of_gt hs0), Int.floor_one, one_mul]
  have hac : ¬ actualKpd vol (fun _ => stepOf oe) < 0 := by
    apply not_lt.mpr
    apply le_of_lt
    unfold actualKpd
    have := stepOf_pos oe
    have hc : (0 : α) < ((stepOf oe : ℤ) : α) := hs0
    positivity
  rw [get_kpts_as_pipeline, hF, hN]
  unfold repair
  rw [if_neg hac]
  dsimp only
  exact whileLoop_stop hac 3 0

/-- Deciding numpy closeness without the absolute value, first for a
left argument well below the right one. -/
lemma not_isclose_of_lt {a b : α} (hb : 0 ≤ b)
    (h : 1 / 100000000 + 1 / 100000 * b < b - a) : ¬ isclose a b := by
  unfold isclose
  rw [abs_of_nonneg hb]
  intro hh
  have h1 := (abs_le.mp hh).1
  linarith

/-- Deciding numpy closeness without the absolute value, for a left
argument well above the right one. -/
lemma not_isclose_of_gt {a b : α} (hb : 0 ≤ b)
    (h : 1 / 100000000 + 1 / 100000 * b < a - b) : ¬ isclose a b := by
  unfold isclose
  rw [abs_of_nonneg hb]
  intro hh
  have h1 := (abs_le.mp hh).2
  linarith

lemma isclose_self (a : α) : isclose a a := by
  unfold isclose
  rw [sub_self, abs_zero]
  positivity

/-! ### Claim theorems -/

/-- C1: for every input with strictly positive cell lengths, strictly
positive volume, positive target density and step in one of the two
allowed modes, the grid returned by `get_kpts_from_kpd` satisfies
`vol * nx * ny * nz ≥ kpd` in exact real arithmetic.  `mult` is the
cube root computed on kgrid.py line 23, pinned by its defining
equation. -/
theorem C1_density_target_met (lengths : Fin 3 → α) (vol kpd mult : α)
    (oe : Bool) (hl : ∀ i, 0 < lengths i) (hv : 0 < vol) (hk : 0 < kpd)
    (hm : 0 ≤ mult)
    (hc : mult ^ 3 = kpd / vol * (lengths 0 * lengths 1 * lengths 2)) :
    kpd ≤ actualKpd vol (Kgrid.get_kpts_from_kpd lengths vol kpd mult oe) :=
  repair_then_loop_meets vol kpd (stepOf oe)
    (nkpt_frac lengths mult (stepOf oe))
    (nkptOf (nkpt_frac lengths mult (stepOf oe)) (stepOf oe))
    (argsort3 (delta_ceil (nkpt_frac lengths mult (stepOf oe)) (stepOf oe)))
    (argsort3_injective _)
    (full_bump_meets vol kpd (stepOf oe) (one_le_stepOf oe) hv
      (nkpt_frac lengths mult (stepOf oe)) (fun i => le_max_right _ _)
      (kpd_le_frac_prod lengths vol kpd mult (stepOf oe) hl hv hm hc))

/-- Witness for C1 at the cubic cell with unit lengths, unit volume,
target density 8 and cube root 2. -/
theorem C1_density_target_met_witness :
    ((∀ i : Fin 3, (0 : ℚ) < (fun _ => (1 : ℚ)) i) ∧ (0 : ℚ) < 1 ∧
      (0 : ℚ) < 8 ∧ (0 : ℚ) ≤ 2 ∧
      (2 : ℚ) ^ 3 = 8 / 1 *
        ((fun _ => (1 : ℚ)) 0 * (fun _ => (1 : ℚ)) 1 * (fun _ => (1 : ℚ)) 2)) ∧
    (8 : ℚ) ≤ actualKpd 1 (Kgrid.get_kpts_from_kpd (fun _ => (1 : ℚ)) 1 8 2 false) :=
  ⟨⟨fun _ => by norm_num, by norm_num, by norm_num, by norm_num, by norm_num⟩,
    C1_density_target_met (fun _ => (1 : ℚ)) 1 8 2 false
      (fun _ => by norm_num) (by norm_num) (by norm_num) (by norm_num)
      (by norm_num)⟩

/-- C2: every returned axis count is a positive integer multiple of the
step; with `only_even = true` (step 2) every count is even and at least
2, with `only_even = false` every count is at least 1. -/
theorem C2_axis_counts_positive_multiples (lengths : Fin 3 → α)
    (vol kpd mult : α) (oe : Bool) (hl : ∀ i, 0 < lengths i) (hv : 0 < vol)
    (hk : 0 < kpd) (hm : 0 ≤ mult)
    (hc : mult ^ 3 = kpd / vol * (lengths 0 * lengths 1 * lengths 2))
    (i : Fin 3) :
    0 < Kgrid.get_kpts_from_kpd lengths vol kpd mult oe i ∧
    stepOf oe ∣ Kgrid.get_kpts_from_kpd lengths vol kpd mult oe i ∧
    (oe = true → 2 ≤ Kgrid.get_kpts_from_kpd lengths vol kpd mult oe i ∧
      2 ∣ Kgrid.get_kpts_from_kpd lengths vol kpd mult oe i) ∧
    (oe = false → 1 ≤ Kgrid.get_kpts_from_kpd lengths vol kpd mult oe i) := by
  have h1s := one_le_stepOf oe
  have hNge : stepOf oe ≤
      nkptOf (nkpt_frac lengths mult (stepOf oe)) (stepOf oe) i :=
    (nkptOf_bounds _ _ h1s (fun j => le_max_right _ _) i).1
  have hNdvd : stepOf oe ∣
      nkptOf (nkpt_frac lengths mult (stepOf oe)) (stepOf oe) i := by
    show stepOf oe ∣ ⌊nkpt_frac lengths mult (stepOf oe) i / ((stepOf oe : ℤ) : α)⌋ *
      stepOf oe
    exact dvd_mul_left _ _
  have hge : stepOf oe ≤ Kgrid.get_kpts_from_kpd lengths vol kpd mult oe i := by
    rcases get_kpts_shape lengths vol kpd mult oe i with hr | hr <;> rw [hr]
    · exact hNge
    · omega
  have hdvd : stepOf oe ∣ Kgrid.get_kpts_from_kpd lengths vol kpd mult oe i := by
    rcases get_kpts_shape lengths vol kpd mult oe i with hr | hr <;> rw [hr]
    · exact hNdvd
    · exact dvd_add hNdvd dvd_rfl
  have hpos : 0 < Kgrid.get_kpts_from_kpd lengths vol kpd mult oe i :=
    lt_of_lt_of_le (stepOf_pos oe) hge
  refine ⟨hpos, hdvd, ?_, ?_⟩
  · intro h
    subst h
    have h2 : stepOf true = 2 := rfl
    rw [h2] at hge hdvd
    exact ⟨hge, hdvd⟩
  · intro h
    subst h
    have h1 : stepOf false = 1 := rfl
    rw [h1] at hge
    exact hge

/-- Witness for C2 at the cubic cell with unit lengths, unit volume,
target density 8 and cube root 2, in even-only mode. -/
theorem C2_axis_counts_positive_multiples_witness :
    ((∀ i : Fin 3, (0 : ℚ) < (fun _ => (1 : ℚ)) i) ∧ (0 : ℚ) < 1 ∧
      (0 : ℚ) < 8 ∧ (0 : ℚ) ≤ 2 ∧
      (2 : ℚ) ^ 3 = 8 / 1 *
        ((fun _ => (1 : ℚ)) 0 * (fun _ => (1 : ℚ)) 1 * (fun _ => (1 : ℚ)) 2)) ∧
    (0 < Kgrid.get_kpts_from_kpd (fun _ => (1 : ℚ)) 1 8 2 true 0 ∧
      stepOf true ∣ Kgrid.get_kpts_from_kpd (fun _ => (1 : ℚ)) 1 8 2 true 0 ∧
      (true = true → 2 ≤ Kgrid.get_kpts_from_kpd (fun _ => (1 : ℚ)) 1 8 2 true 0 ∧
        2 ∣ Kgrid.get_kpts_from_kpd (fun _ => (1 : ℚ)) 1 8 2 true 0) ∧
      (true = false → 1 ≤ Kgrid.get_kpts_from_kpd (fun _ => (1 : ℚ)) 1 8 2 true 0)) :=
  ⟨⟨fun _ => by norm_num, by norm_num, by norm_num, by norm_num, by norm_num⟩,
    C2_axis_counts_positive_multiples (fun _ => (1 : ℚ)) 1 8 2 true
      (fun _ => by norm_num) (by norm_num) (by norm_num) (by norm_num)
      (by norm_num) 0⟩

/-- C3 counterexample: a non-positive target density is not rejected.
At zero target density with a perfectly valid unit cell the solver
raises nothing and returns the grid `(1, 1, 1)`; no error of any kind
occurs, every division in the run has a nonzero denominator, so the
claimed fail-fast `InvalidDensity` detection does not exist. -/
theorem C3_counterexample :
    ¬ (0 : ℚ) < 0 ∧
      Kgrid.get_kpts_from_kpd (fun _ => (1 : ℚ)) 1 0 0 false = fun _ => 1 :=
  ⟨by norm_num, get_kpts_zero_kpd (fun _ => (1 : ℚ)) 1 false (by norm_num)⟩

/-- C3 amended: the code performs no input validation at all.  In
particular a zero (non-positive) target density is accepted: with
positive lengths and volume the solver returns the minimal grid
`(step, step, step)` instead of failing; a step outside the set 1, 2 is
unreachable because the step is derived from the boolean `only_even`.
Degenerate zero geometry does not fail fast either - in the floating
point code it propagates non-finite values into the final integer
conversion, behavior outside this exact-arithmetic model. -/
theorem C3_no_validation_zero_density_accepted (lengths : Fin 3 → α)
    (vol : α) (oe : Bool) (hl : ∀ i, 0 < lengths i) (hv : 0 < vol) :
    Kgrid.get_kpts_from_kpd lengths vol 0 0 oe = fun _ => stepOf oe :=
  get_kpts_zero_kpd lengths vol oe hv

/-- Witness for the amended C3 at a unit cell in even-only mode. -/
theorem C3_no_validation_zero_density_accepted_witness :
    ((∀ i : Fin 3, (0 : ℚ) < (fun _ => (1 : ℚ)) i) ∧ (0 : ℚ) < 1) ∧
      Kgrid.get_kpts_from_kpd (fun _ => (1 : ℚ)) 1 0 0 true =
        fun _ => stepOf true :=
  ⟨⟨fun _ => by norm_num, by norm_num⟩,
    C3_no_validation_zero_density_accepted (fun _ => (1 : ℚ)) 1 true
      (fun _ => by norm_num) (by norm_num)⟩

/-- C5: a cubic cell (all lengths equal) with step 1 yields equal axis
counts whenever `mult / a` is an integer.  In this exact-arithmetic
model the fractional counts of a cubic cell are all equal, the stable
sort is the identity and the all-three-close repair branch fires, so
the counts stay equal. -/
theorem C5_cubic_equal_counts (lengths : Fin 3 → α) (vol kpd mult : α)
    (hcube : lengths 0 = lengths 1 ∧ lengths 1 = lengths 2)
    (hl : ∀ i, 0 < lengths i) (hv : 0 < vol) (hk : 0 < kpd) (hm : 0 ≤ mult)
    (hc : mult ^ 3 = kpd / vol * (lengths 0 * lengths 1 * lengths 2))
    (hint : ∃ k : ℤ, mult / lengths 0 = (k : α)) :
    Kgrid.get_kpts_from_kpd lengths vol kpd mult false 0 =
        Kgrid.get_kpts_from_kpd lengths vol kpd mult false 1 ∧
      Kgrid.get_kpts_from_kpd lengths vol kpd mult false 1 =
        Kgrid.get_kpts_from_kpd lengths vol kpd mult false 2 := by
  have h02 : lengths 0 = lengths 2 := hcube.1.trans hcube.2
  have hF : nkpt_frac lengths mult (stepOf false) =
      fun _ => max (mult / lengths 0) ((stepOf false : ℤ) : α) := by
    funext i
    unfold nkpt_frac
    rcases fin3_cases i with rfl | rfl | rfl
    · rfl
    · rw [← hcube.1]
    · rw [← h02]
  rw [get_kpts_as_pipeline, hF]
  exact ⟨pipeline_const_result vol kpd (stepOf false) _ 0 1,
    pipeline_const_result vol kpd (stepOf false) _ 1 2⟩

/-- Witness for C5 at the unit cubic cell with target density 27 and
cube root 3, an integer multiple of the unit length. -/
theorem C5_cubic_equal_counts_witness :
    (((fun _ => (1 : ℚ)) 0 = (fun _ => (1 : ℚ)) 1 ∧
        (fun _ => (1 : ℚ)) 1 = (fun _ => (1 : ℚ)) 2) ∧
      (∀ i : Fin 3, (0 : ℚ) < (fun _ => (1 : ℚ)) i) ∧ (0 : ℚ) < 1 ∧
      (0 : ℚ) < 27 ∧ (0 : ℚ) ≤ 3 ∧
      (3 : ℚ) ^ 3 = 27 / 1 *
        ((fun _ => (1 : ℚ)) 0 * (fun _ => (1 : ℚ)) 1 * (fun _ => (1 : ℚ)) 2) ∧
      (∃ k : ℤ, (3 : ℚ) / (fun _ => (1 : ℚ)) 0 = (k : ℚ))) ∧
    (Kgrid.get_kpts_from_kpd (fun _ => (1 : ℚ)) 1 27 3 false 0 =
        Kgrid.get_kpts_from_kpd (fun _ => (1 : ℚ)) 1 27 3 false 1 ∧
      Kgrid.get_kpts_from_kpd (fun _ => (1 : ℚ)) 1 27 3 false 1 =
        Kgrid.get_kpts_from_kpd (fun _ => (1 : ℚ)) 1 27 3 false 2) :=
  ⟨⟨⟨rfl, rfl⟩, fun _ => by norm_num, by norm_num, by norm_num, by norm_num,
      by norm_num, ⟨3, by norm_num⟩⟩,
    C5_cubic_equal_counts (fun _ => (1 : ℚ)) 1 27 3 ⟨rfl, rfl⟩
      (fun _ => by norm_num) (by norm_num) (by norm_num) (by norm_num)
      (by norm_num) ⟨3, by norm_num⟩⟩

/-- C7: the legacy variant forms exactly the all-floor candidate (with a
floor of 1 per axis) and the all-ceil candidate, compares the two
relative errors against the target, returns the ceiled candidate
exactly when its error is strictly smaller and the floored candidate
otherwise; the definition is duplicated identically in job_control.py. -/
theorem C7_floor_ceil_candidates (lengths : Fin 3 → α) (vol kpd mult : α) :
    (Kgrid.errorc lengths vol kpd mult < Kgrid.errorf lengths vol kpd mult →
      Kgrid.kgrid_from_cell_volume lengths vol kpd mult =
        Kgrid.num_divc lengths mult) ∧
    (¬ Kgrid.errorc lengths vol kpd mult < Kgrid.errorf lengths vol kpd mult →
      Kgrid.kgrid_from_cell_volume lengths vol kpd mult =
        Kgrid.num_divf lengths mult) ∧
    (∀ i, 1 ≤ Kgrid.num_divf lengths mult i) ∧
    Kgrid.kgrid_from_cell_volume lengths vol kpd mult =
      JobControl.kgrid_from_cell_volume lengths vol kpd mult := by
  refine ⟨fun h => ?_, fun h => ?_, fun i => ?_, rfl⟩
  · unfold Kgrid.kgrid_from_cell_volume
    rw [if_pos h]
  · unfold Kgrid.kgrid_from_cell_volume
    rw [if_neg h]
  · show (1 : ℤ) ≤ ⌊max (mult / lengths i) 1⌋
    rw [Int.le_floor]
    exact_mod_cast le_max_right (mult / lengths i) 1

/-- The legacy variant at the unit cubic cell with target density 9.261
and cube root 2.1 keeps the floored candidate. -/
lemma legacy_eval_concrete :
    ¬ Kgrid.errorc (fun _ => (1 : ℚ)) 1 (9261 / 1000) (21 / 10) <
      Kgrid.errorf (fun _ => (1 : ℚ)) 1 (9261 / 1000) (21 / 10) := by
  have hdf : Kgrid.num_divf (fun _ => (1 : ℚ)) (21 / 10) = fun _ => 2 := by
    funext i
    unfold Kgrid.num_divf
    norm_num
  have hdc : Kgrid.num_divc (fun _ => (1 : ℚ)) (21 / 10) = fun _ => 3 := by
    funext i
    unfold Kgrid.num_divc
    rw [show ((21 : ℚ) / 10) / 1 = 21 / 10 by norm_num, Int.ceil_eq_iff] <;>
      norm_num
  have h8 : actualKpd (1 : ℚ) (fun _ => 2) = 8 := by
    unfold actualKpd; norm_num
  have h27 : actualKpd (1 : ℚ) (fun _ => 3) = 27 := by
    unfold actualKpd; norm_num
  unfold Kgrid.errorc Kgrid.errorf Kgrid.kpdc Kgrid.kpdf
  rw [hdf, hdc, h8, h27,
    abs_of_nonpos (by norm_num : (9261 / 1000 : ℚ) - 27 ≤ 0),
    abs_of_nonneg (by norm_num : (0 : ℚ) ≤ 9261 / 1000 - 8)]
  norm_num

/-- Witness for C7: at a concrete input the floored candidate has the
smaller error and is returned. -/
theorem C7_floor_ceil_candidates_witness :
    (¬ Kgrid.errorc (fun _ => (1 : ℚ)) 1 (9261 / 1000) (21 / 10) <
        Kgrid.errorf (fun _ => (1 : ℚ)) 1 (9261 / 1000) (21 / 10)) ∧
      Kgrid.kgrid_from_cell_volume (fun _ => (1 : ℚ)) 1 (9261 / 1000) (21 / 10) =
        Kgrid.num_divf (fun _ => (1 : ℚ)) (21 / 10) :=
  ⟨legacy_eval_concrete,
    (C7_floor_ceil_candidates (fun _ => (1 : ℚ)) 1 (9261 / 1000)
      (21 / 10)).2.1 legacy_eval_concrete⟩

/-- C10: the legacy variant can return a grid strictly below the target
density.  At the unit cubic cell with target 9.261 and cube root 2.1
(a valid geometry: `2.1 ^ 3 = 9.261`), it returns the all-floor grid
`(2, 2, 2)` with `vol * 8 = 8 < 9.261`. -/
theorem C10_legacy_below_target :
    (∀ i : Fin 3, (0 : ℚ) < (fun _ => (1 : ℚ)) i) ∧ (0 : ℚ) < 1 ∧
    (0 : ℚ) < 9261 / 1000 ∧
    (21 / 10 : ℚ) ^ 3 = 9261 / 1000 / 1 *
      ((fun _ => (1 : ℚ)) 0 * (fun _ => (1 : ℚ)) 1 * (fun _ => (1 : ℚ)) 2) ∧
    actualKpd (1 : ℚ) (Kgrid.kgrid_from_cell_volume (fun _ => (1 : ℚ)) 1
      (9261 / 1000) (21 / 10)) < 9261 / 1000 := by
  refine ⟨fun _ => by norm_num, by norm_num, by norm_num, by norm_num, ?_⟩
  have hdf : Kgrid.num_divf (fun _ => (1 : ℚ)) (21 / 10) = fun _ => 2 := by
    funext i
    unfold Kgrid.num_divf
    norm_num
  have h1 : Kgrid.kgrid_from_cell_volume (fun _ => (1 : ℚ)) 1 (9261 / 1000)
      (21 / 10) = Kgrid.num_divf (fun _ => (1 : ℚ)) (21 / 10) := by
    unfold Kgrid.kgrid_from_cell_volume
    rw [if_neg legacy_eval_concrete]
  rw [h1, hdf]
  unfold actualKpd
  norm_num

/-- C6: in the repair pass, when the floored grid misses the target and,
among the axes ranked ascending by `delta_ceil`, only the two
farthest-ranked fractional counts are approximately equal (the nearest
pair is not close, which also rules out the all-three-close case), the
solver increments the nearest-ranked axis by one step, and if the
density is still below the target it increments the other two axes as
well; nothing further happens because the loop index is already 3. -/
theorem C6_two_farthest_close_branch (lengths : Fin 3 → α)
    (vol kpd mult : α) (oe : Bool)
    (hac : actualKpd vol
      (nkptOf (nkpt_frac lengths mult (stepOf oe)) (stepOf oe)) < kpd)
    (h01 : ¬ isclose
      (nkpt_frac lengths mult (stepOf oe)
        (argsort3 (delta_ceil (nkpt_frac lengths mult (stepOf oe)) (stepOf oe)) 0))
      (nkpt_frac lengths mult (stepOf oe)
        (argsort3 (delta_ceil (nkpt_frac lengths mult (stepOf oe)) (stepOf oe)) 1)))
    (h12 : isclose
      (nkpt_frac lengths mult (stepOf oe)
        (argsort3 (delta_ceil (nkpt_frac lengths mult (stepOf oe)) (stepOf oe)) 1))
      (nkpt_frac lengths mult (stepOf oe)
        (argsort3 (delta_ceil (nkpt_frac lengths mult (stepOf oe)) (stepOf oe)) 2))) :
    Kgrid.get_kpts_from_kpd lengths vol kpd mult oe =
      if actualKpd vol
          (bump (nkptOf (nkpt_frac lengths mult (stepOf oe)) (stepOf oe))
            (argsort3 (delta_ceil (nkpt_frac lengths mult (stepOf oe)) (stepOf oe)) 0)
            (stepOf oe)) < kpd then
        bump (bump (bump (nkptOf (nkpt_frac lengths mult (stepOf oe)) (stepOf oe))
          (argsort3 (delta_ceil (nkpt_frac lengths mult (stepOf oe)) (stepOf oe)) 0)
          (stepOf oe))
          (argsort3 (delta_ceil (nkpt_frac lengths mult (stepOf oe)) (stepOf oe)) 1)
          (stepOf oe))
          (argsort3 (delta_ceil (nkpt_frac lengths mult (stepOf oe)) (stepOf oe)) 2)
          (stepOf oe)
      else
        bump (nkptOf (nkpt_frac lengths mult (stepOf oe)) (stepOf oe))
          (argsort3 (delta_ceil (nkpt_frac lengths mult (stepOf oe)) (stepOf oe)) 0)
          (stepOf oe) := by
  rw [get_kpts_as_pipeline]
  unfold repair
  rw [if_pos hac, if_neg (fun hh => h01 hh.1), if_neg h01, if_pos h12]
  exact whileLoop_i3 _ 3

/-- Witness for C6 at the cell with lengths `(2/5, 5/22, 5/22)`, volume
1, target density 48.4 and cube root 1: the fractional counts are
`(5/2, 22/5, 22/5)`, the two farthest-ranked ones coincide, and the
branch bumps first one axis and then, still short, the other two. -/
theorem C6_two_farthest_close_branch_witness :
    (actualKpd (1 : ℚ)
      (nkptOf (nkpt_frac (![2/5, 5/22, 5/22] : Fin 3 → ℚ) 1 (stepOf false))
        (stepOf false)) < 242/5 ∧
    ¬ isclose
      (nkpt_frac (![2/5, 5/22, 5/22] : Fin 3 → ℚ) 1 (stepOf false)
        (argsort3 (delta_ceil (nkpt_frac (![2/5, 5/22, 5/22] : Fin 3 → ℚ) 1
          (stepOf false)) (stepOf false)) 0))
      (nkpt_frac (![2/5, 5/22, 5/22] : Fin 3 → ℚ) 1 (stepOf false)
        (argsort3 (delta_ceil (nkpt_frac (![2/5, 5/22, 5/22] : Fin 3 → ℚ) 1
          (stepOf false)) (stepOf false)) 1)) ∧
    isclose
      (nkpt_frac (![2/5, 5/22, 5/22] : Fin 3 → ℚ) 1 (stepOf false)
        (argsort3 (delta_ceil (nkpt_frac (![2/5, 5/22, 5/22] : Fin 3 → ℚ) 1
          (stepOf false)) (stepOf false)) 1))
      (nkpt_frac (![2/5, 5/22, 5/22] : Fin 3 → ℚ) 1 (stepOf false)
        (argsort3 (delta_ceil (nkpt_frac (![2/5, 5/22, 5/22] : Fin 3 → ℚ) 1
          (stepOf false)) (stepOf false)) 2))) ∧
    Kgrid.get_kpts_from_kpd (![2/5, 5/22, 5/22] : Fin 3 → ℚ) 1 (242/5) 1 false =
      (if actualKpd (1 : ℚ)
          (bump (nkptOf (nkpt_frac (![2/5, 5/22, 5/22] : Fin 3 → ℚ) 1
            (stepOf false)) (stepOf false))
            (argsort3 (delta_ceil (nkpt_frac (![2/5, 5/22, 5/22] : Fin 3 → ℚ) 1
              (stepOf false)) (stepOf false)) 0)
            (stepOf false)) < 242/5 then
        bump (bump (bump (nkptOf (nkpt_frac (![2/5, 5/22, 5/22] : Fin 3 → ℚ) 1
          (stepOf false)) (stepOf false))
          (argsort3 (delta_ceil (nkpt_frac (![2/5, 5/22, 5/22] : Fin 3 → ℚ) 1
            (stepOf false)) (stepOf false)) 0)
          (stepOf false))
          (argsort3 (delta_ceil (nkpt_frac (![2/5, 5/22, 5/22] : Fin 3 → ℚ) 1
            (stepOf false)) (stepOf false)) 1)
          (stepOf false))
          (argsort3 (delta_ceil (nkpt_frac (![2/5, 5/22, 5/22] : Fin 3 → ℚ) 1
            (stepOf false)) (stepOf false)) 2)
          (stepOf false)
      else
        bump (nkptOf (nkpt_frac (![2/5, 5/22, 5/22] : Fin 3 → ℚ) 1
          (stepOf false)) (stepOf false))
          (argsort3 (delta_ceil (nkpt_frac (![2/5, 5/22, 5/22] : Fin 3 → ℚ) 1
            (stepOf false)) (stepOf false)) 0)
          (stepOf false)) := by
  have hF : nkpt_frac (![2/5, 5/22, 5/22] : Fin 3 → ℚ) 1 (stepOf false) =
      ![5/2, 22/5, 22/5] := by
    funext i
    rcases fin3_cases i with rfl | rfl | rfl
    · show max ((1 : ℚ) / (2/5)) ((stepOf false : ℤ) : ℚ) = 5/2
      norm_num [stepOf]
    · show max ((1 : ℚ) / (5/22)) ((stepOf false : ℤ) : ℚ) = 22/5
      norm_num [stepOf]
    · show max ((1 : ℚ) / (5/22)) ((stepOf false : ℤ) : ℚ) = 22/5
      norm_num [stepOf]
  have hD : delta_ceil (![5/2, 22/5, 22/5] : Fin 3 → ℚ) (stepOf false) =
      ![1/2, 3/5, 3/5] := by
    funext i
    rcases fin3_cases i with rfl | rfl | rfl
    · show ((⌈(5/2 : ℚ) / ((stepOf false : ℤ) : ℚ)⌉ * stepOf false : ℤ) : ℚ) -
        5/2 = 1/2
      rw [show ((stepOf false : ℤ) : ℚ) = 1 from rfl,
        show (stepOf false : ℤ) = 1 from rfl, div_one, mul_one,
        show ⌈(5/2 : ℚ)⌉ = 3 by rw [Int.ceil_eq_iff] <;> norm_num]
      norm_num
    · show ((⌈(22/5 : ℚ) / ((stepOf false : ℤ) : ℚ)⌉ * stepOf false : ℤ) : ℚ) -
        22/5 = 3/5
      rw [show ((stepOf false : ℤ) : ℚ) = 1 from rfl,
        show (stepOf false : ℤ) = 1 from rfl, div_one, mul_one,
        show ⌈(22/5 : ℚ)⌉ = 5 by rw [Int.ceil_eq_iff] <;> norm_num]
      norm_num
    · show ((⌈(22/5 : ℚ) / ((stepOf false : ℤ) : ℚ)⌉ * stepOf false : ℤ) : ℚ) -
        22/5 = 3/5
      rw [show ((stepOf false : ℤ) : ℚ) = 1 from rfl,
        show (stepOf false : ℤ) = 1 from rfl, div_one, mul_one,
        show ⌈(22/5 : ℚ)⌉ = 5 by rw [Int.ceil_eq_iff] <;> norm_num]
      norm_num
  have hO : argsort3 (![1/2, 3/5, 3/5] : Fin 3 → ℚ) = ![0, 1, 2] := by
    have hd01 : (![1/2, 3/5, 3/5] : Fin 3 → ℚ) 0 ≤
        (![1/2, 3/5, 3/5] : Fin 3 → ℚ) 1 := by
      show (1 : ℚ)/2 ≤ 3/5
      norm_num
    have hd12 : (![1/2, 3/5, 3/5] : Fin 3 → ℚ) 1 ≤
        (![1/2, 3/5, 3/5] : Fin 3 → ℚ) 2 := le_rfl
    unfold argsort3
    rw [if_pos hd01, if_pos hd12]
  have hN : nkptOf (![5/2, 22/5, 22/5] : Fin 3 → ℚ) (stepOf false) =
      ![2, 4, 4] := by
    funext i
    rcases fin3_cases i with rfl | rfl | rfl
    · show ⌊(5/2 : ℚ) / ((stepOf false : ℤ) : ℚ)⌋ * stepOf false = 2
      norm_num [stepOf]
    · show ⌊(22/5 : ℚ) / ((stepOf false : ℤ) : ℚ)⌋ * stepOf false = 4
      norm_num [stepOf]
    · show ⌊(22/5 : ℚ) / ((stepOf false : ℤ) : ℚ)⌋ * stepOf false = 4
      norm_num [stepOf]
  have hac : actualKpd (1 : ℚ)
      (nkptOf (nkpt_frac (![2/5, 5/22, 5/22] : Fin 3 → ℚ) 1 (stepOf false))
        (stepOf false)) < 242/5 := by
    rw [hF, hN]
    show (1 : ℚ) * (((2 : ℤ) : ℚ) * ((4 : ℤ) : ℚ) * ((4 : ℤ) : ℚ)) < 242/5
    norm_num
  have h01 : ¬ isclose
      (nkpt_frac (![2/5, 5/22, 5/22] : Fin 3 → ℚ) 1 (stepOf false)
        (argsort3 (delta_ceil (nkpt_frac (![2/5, 5/22, 5/22] : Fin 3 → ℚ) 1
          (stepOf false)) (stepOf false)) 0))
      (nkpt_frac (![2/5, 5/22, 5/22] : Fin 3 → ℚ) 1 (stepOf false)
        (argsort3 (delta_ceil (nkpt_frac (![2/5, 5/22, 5/22] : Fin 3 → ℚ) 1
          (stepOf false)) (stepOf false)) 1)) := by
    rw [hF, hD, hO]
    show ¬ isclose ((5 : ℚ)/2) (22/5)
    exact not_isclose_of_lt (by norm_num) (by norm_num)
  have h12 : isclose
      (nkpt_frac (![2/5, 5/22, 5/22] : Fin 3 → ℚ) 1 (stepOf false)
        (argsort3 (delta_ceil (nkpt_frac (![2/5, 5/22, 5/22] : Fin 3 → ℚ) 1
          (stepOf false)) (stepOf false)) 1))
      (nkpt_frac (![2/5, 5/22, 5/22] : Fin 3 → ℚ) 1 (stepOf false)
        (argsort3 (delta_ceil (nkpt_frac (![2/5, 5/22, 5/22] : Fin 3 → ℚ) 1
          (stepOf false)) (stepOf false)) 2)) := by
    rw [hF, hD, hO]
    show isclose ((22 : ℚ)/5) (22/5)
    exact isclose_self _
  exact ⟨⟨hac, h01, h12⟩,
    C6_two_farthest_close_branch (![2/5, 5/22, 5/22] : Fin 3 → ℚ) 1 (242/5) 1
      false hac h01 h12⟩

/-- C8: the two `safe_kgrid_from_cell_volume` definitions are the same
function, and `get_kpts_from_kpd` with `only_even = false` computes
exactly the same grid: with step 1 the fractional counts, floors and
ceil distances coincide with the step-free source text. -/
theorem C8_duplicate_solvers_agree (lengths : Fin 3 → α) (vol kpd mult : α) :
    Kgrid.safe_kgrid_from_cell_volume lengths vol kpd mult =
      JobControl.safe_kgrid_from_cell_volume lengths vol kpd mult ∧
    Kgrid.get_kpts_from_kpd lengths vol kpd mult false =
      Kgrid.safe_kgrid_from_cell_volume lengths vol kpd mult := by
  constructor
  · rfl
  · have hF : nkpt_frac lengths mult (stepOf false) =
        fun i => max (mult / lengths i) 1 := by
      funext i
      unfold nkpt_frac
      norm_num [stepOf]
    have hN : nkptOf (fun i => max (mult / lengths i) 1) (stepOf false) =
        fun i => ⌊max (mult / lengths i) 1⌋ := by
      funext i
      unfold nkptOf
      norm_num [stepOf]
    have hD : delta_ceil (fun i => max (mult / lengths i) 1) (stepOf false) =
        fun i => ((⌈max (mult / lengths i) 1⌉ : ℤ) : α) -
          max (mult / lengths i) 1 := by
      funext i
      unfold delta_ceil
      norm_num [stepOf]
    rw [get_kpts_as_pipeline, hF, hN, hD]
    rfl

/-- C4 amended: raising the target density while holding the geometry
fixed cannot lower any axis count by more than one step: the floored
base grid is axis-wise monotone in the target and the repair adds at
most one step per axis.  Exact axis-wise monotonicity fails, see the
counterexample. -/
theorem C4_monotone_within_one_step (lengths : Fin 3 → α)
    (vol kpd1 kpd2 mult1 mult2 : α) (oe : Bool)
    (hl : ∀ i, 0 < lengths i) (hv : 0 < vol) (hk1 : 0 < kpd1)
    (hkk : kpd1 ≤ kpd2) (hm1 : 0 ≤ mult1) (hm2 : 0 ≤ mult2)
    (hc1 : mult1 ^ 3 = kpd1 / vol * (lengths 0 * lengths 1 * lengths 2))
    (hc2 : mult2 ^ 3 = kpd2 / vol * (lengths 0 * lengths 1 * lengths 2))
    (i : Fin 3) :
    Kgrid.get_kpts_from_kpd lengths vol kpd1 mult1 oe i - stepOf oe ≤
      Kgrid.get_kpts_from_kpd lengths vol kpd2 mult2 oe i := by
  have hL : (0 : α) < lengths 0 * lengths 1 * lengths 2 :=
    mul_pos (mul_pos (hl 0) (hl 1)) (hl 2)
  have hm3 : mult1 ^ 3 ≤ mult2 ^ 3 := by
    rw [hc1, hc2]
    apply mul_le_mul_of_nonneg_right _ (le_of_lt hL)
    exact (div_le_div_right hv).mpr hkk
  have hmle : mult1 ≤ mult2 := by
    have h3 : (3 : ℕ) ≠ 0 := by norm_num
    exact le_of_pow_le_pow_left h3 hm2 hm3
  have hs0 : (0 : α) < ((stepOf oe : ℤ) : α) := by
    exact_mod_cast stepOf_pos oe
  have hs1 : (1 : ℤ) ≤ stepOf oe := one_le_stepOf oe
  have hFle : ∀ j, nkpt_frac lengths mult1 (stepOf oe) j ≤
      nkpt_frac lengths mult2 (stepOf oe) j := by
    intro j
    unfold nkpt_frac
    exact max_le_max ((div_le_div_right (hl j)).mpr hmle) le_rfl
  have hNle : nkptOf (nkpt_frac lengths mult1 (stepOf oe)) (stepOf oe) i ≤
      nkptOf (nkpt_frac lengths mult2 (stepOf oe)) (stepOf oe) i := by
    unfold nkptOf
    apply mul_le_mul_of_nonneg_right _ (le_of_lt (stepOf_pos oe))
    exact Int.floor_le_floor ((div_le_div_right hs0).mpr (hFle i))
  rcases get_kpts_shape lengths vol kpd1 mult1 oe i with h1 | h1 <;>
    rcases get_kpts_shape lengths vol kpd2 mult2 oe i with h2 | h2 <;>
      rw [h1, h2] <;> omega

/-- Witness for the amended C4 at the unit cubic cell with targets 8
and 27 and cube roots 2 and 3. -/
theorem C4_monotone_within_one_step_witness :
    ((∀ i : Fin 3, (0 : ℚ) < (fun _ => (1 : ℚ)) i) ∧ (0 : ℚ) < 1 ∧
      (0 : ℚ) < 8 ∧ (8 : ℚ) ≤ 27 ∧ (0 : ℚ) ≤ 2 ∧ (0 : ℚ) ≤ 3 ∧
      (2 : ℚ) ^ 3 = 8 / 1 *
        ((fun _ => (1 : ℚ)) 0 * (fun _ => (1 : ℚ)) 1 * (fun _ => (1 : ℚ)) 2) ∧
      (3 : ℚ) ^ 3 = 27 / 1 *
        ((fun _ => (1 : ℚ)) 0 * (fun _ => (1 : ℚ)) 1 * (fun _ => (1 : ℚ)) 2)) ∧
    Kgrid.get_kpts_from_kpd (fun _ => (1 : ℚ)) 1 8 2 false 0 - stepOf false ≤
      Kgrid.get_kpts_from_kpd (fun _ => (1 : ℚ)) 1 27 3 false 0 :=
  ⟨⟨fun _ => by norm_num, by norm_num, by norm_num, by norm_num, by norm_num,
      by norm_num, by norm_num, by norm_num⟩,
    C4_monotone_within_one_step (fun _ => (1 : ℚ)) 1 8 27 2 3 false
      (fun _ => by norm_num) (by norm_num) (by norm_num) (by norm_num)
      (by norm_num) (by norm_num) (by norm_num) (by norm_num) 0⟩

/-- C4 counterexample: axis-wise monotonicity in the target density
fails.  For the orthorhombic cell with lengths `(100/501, 1000/8009,
1000/3001)` and consistent volume (the product of the lengths), raising
the target from 1 to `1.001 ^ 3` flips the stable `delta_ceil` ranking
between the first two axes, so the single repair bump moves from axis 0
to axis 1: the first axis count drops from 6 to 5 although the target
increased. -/
theorem C4_counterexample :
    ((∀ i : Fin 3,
        (0 : ℚ) < (![100/501, 1000/8009, 1000/3001] : Fin 3 → ℚ) i) ∧
      (0 : ℚ) < 100/501 * (1000/8009) * (1000/3001) ∧ (0 : ℚ) < 1 ∧
      (1 : ℚ) ≤ (1001/1000 : ℚ) ^ 3 ∧
      (1 : ℚ) ^ 3 = 1 / (100/501 * (1000/8009) * (1000/3001)) *
        ((![100/501, 1000/8009, 1000/3001] : Fin 3 → ℚ) 0 *
          (![100/501, 1000/8009, 1000/3001] : Fin 3 → ℚ) 1 *
          (![100/501, 1000/8009, 1000/3001] : Fin 3 → ℚ) 2) ∧
      (1001/1000 : ℚ) ^ 3 =
        (1001/1000 : ℚ) ^ 3 / (100/501 * (1000/8009) * (1000/3001)) *
        ((![100/501, 1000/8009, 1000/3001] : Fin 3 → ℚ) 0 *
          (![100/501, 1000/8009, 1000/3001] : Fin 3 → ℚ) 1 *
          (![100/501, 1000/8009, 1000/3001] : Fin 3 → ℚ) 2)) ∧
    Kgrid.get_kpts_from_kpd (![100/501, 1000/8009, 1000/3001] : Fin 3 → ℚ)
      (100/501 * (1000/8009) * (1000/3001)) 1 1 false 0 = 6 ∧
    Kgrid.get_kpts_from_kpd (![100/501, 1000/8009, 1000/3001] : Fin 3 → ℚ)
      (100/501 * (1000/8009) * (1000/3001)) ((1001/1000 : ℚ) ^ 3) (1001/1000)
      false 0 = 5 := by
  -- run with target density 1 and cube root 1
  have hF1 : nkpt_frac (![100/501, 1000/8009, 1000/3001] : Fin 3 → ℚ) 1
      (stepOf false) = ![501/100, 8009/1000, 3001/1000] := by
    funext i
    rcases fin3_cases i with rfl | rfl | rfl
    · show max ((1 : ℚ) / (100/501)) ((stepOf false : ℤ) : ℚ) = 501/100
      norm_num [stepOf]
    · show max ((1 : ℚ) / (1000/8009)) ((stepOf false : ℤ) : ℚ) = 8009/1000
      norm_num [stepOf]
    · show max ((1 : ℚ) / (1000/3001)) ((stepOf false : ℤ) : ℚ) = 3001/1000
      norm_num [stepOf]
  have hN1 : nkptOf (![501/100, 8009/1000, 3001/1000] : Fin 3 → ℚ)
      (stepOf false) = ![5, 8, 3] := by
    funext i
    rcases fin3_cases i with rfl | rfl | rfl
    · show ⌊(501/100 : ℚ) / ((stepOf false : ℤ) : ℚ)⌋ * stepOf false = 5
      norm_num [stepOf]
    · show ⌊(8009/1000 : ℚ) / ((stepOf false : ℤ) : ℚ)⌋ * stepOf false = 8
      norm_num [stepOf]
    · show ⌊(3001/1000 : ℚ) / ((stepOf false : ℤ) : ℚ)⌋ * stepOf false = 3
      norm_num [stepOf]
  have hD1 : delta_ceil (![501/100, 8009/1000, 3001/1000] : Fin 3 → ℚ)
      (stepOf false) = ![99/100, 991/1000, 999/1000] := by
    funext i
    rcases fin3_cases i with rfl | rfl | rfl
    · show ((⌈(501/100 : ℚ) / ((stepOf false : ℤ) : ℚ)⌉ * stepOf false : ℤ) : ℚ)
          - 501/100 = 99/100
      rw [show ((stepOf false : ℤ) : ℚ) = 1 from rfl,
        show (stepOf false : ℤ) = 1 from rfl, div_one, mul_one,
        show ⌈(501/100 : ℚ)⌉ = 6 by rw [Int.ceil_eq_iff] <;> norm_num]
      norm_num
    · show ((⌈(8009/1000 : ℚ) / ((stepOf false : ℤ) : ℚ)⌉ * stepOf false : ℤ) : ℚ)
          - 8009/1000 = 991/1000
      rw [show ((stepOf false : ℤ) : ℚ) = 1 from rfl,
        show (stepOf false : ℤ) = 1 from rfl, div_one, mul_one,
        show ⌈(8009/1000 : ℚ)⌉ = 9 by rw [Int.ceil_eq_iff] <;> norm_num]
      norm_num
    · show ((⌈(3001/1000 : ℚ) / ((stepOf false : ℤ) : ℚ)⌉ * stepOf false : ℤ) : ℚ)
          - 3001/1000 = 999/1000
      rw [show ((stepOf false : ℤ) : ℚ) = 1 from rfl,
        show (stepOf false : ℤ) = 1 from rfl, div_one, mul_one,
        show ⌈(3001/1000 : ℚ)⌉ = 4 by rw [Int.ceil_eq_iff] <;> norm_num]
      norm_num
  have hO1 : argsort3 (![99/100, 991/1000, 999/1000] : Fin 3 → ℚ) =
      ![0, 1, 2] := by
    have hd01 : (![99/100, 991/1000, 999/1000] : Fin 3 → ℚ) 0 ≤
        (![99/100, 991/1000, 999/1000] : Fin 3 → ℚ) 1 := by
      show (99/100 : ℚ) ≤ 991/1000
      norm_num
    have hd12 : (![99/100, 991/1000, 999/1000] : Fin 3 → ℚ) 1 ≤
        (![99/100, 991/1000, 999/1000] : Fin 3 → ℚ) 2 := by
      show (991/1000 : ℚ) ≤ 999/1000
      norm_num
    unfold argsort3
    rw [if_pos hd01, if_pos hd12]
  have hac1 : actualKpd (100/501 * (1000/8009) * (1000/3001) : ℚ)
      (nkptOf (nkpt_frac (![100/501, 1000/8009, 1000/3001] : Fin 3 → ℚ) 1
        (stepOf false)) (stepOf false)) < 1 := by
    rw [hF1, hN1]
    show (100/501 * (1000/8009) * (1000/3001) : ℚ) *
      (((5 : ℤ) : ℚ) * ((8 : ℤ) : ℚ) * ((3 : ℤ) : ℚ)) < 1
    norm_num
  have h011 : ¬ isclose
      (nkpt_frac (![100/501, 1000/8009, 1000/3001] : Fin 3 → ℚ) 1 (stepOf false)
        (argsort3 (delta_ceil (nkpt_frac (![100/501, 1000/8009, 1000/3001] :
          Fin 3 → ℚ) 1 (stepOf false)) (stepOf false)) 0))
      (nkpt_frac (![100/501, 1000/8009, 1000/3001] : Fin 3 → ℚ) 1 (stepOf false)
        (argsort3 (delta_ceil (nkpt_frac (![100/501, 1000/8009, 1000/3001] :
          Fin 3 → ℚ) 1 (stepOf false)) (stepOf false)) 1)) := by
    rw [hF1, hD1, hO1]
    show ¬ isclose ((501/100 : ℚ)) (8009/1000)
    exact not_isclose_of_lt (by norm_num) (by norm_num)
  have h121 : ¬ isclose
      (nkpt_frac (![100/501, 1000/8009, 1000/3001] : Fin 3 → ℚ) 1 (stepOf false)
        (argsort3 (delta_ceil (nkpt_frac (![100/501, 1000/8009, 1000/3001] :
          Fin 3 → ℚ) 1 (stepOf false)) (stepOf false)) 1))
      (nkpt_frac (![100/501, 1000/8009, 1000/3001] : Fin 3 → ℚ) 1 (stepOf false)
        (argsort3 (delta_ceil (nkpt_frac (![100/501, 1000/8009, 1000/3001] :
          Fin 3 → ℚ) 1 (stepOf false)) (stepOf false)) 2)) := by
    rw [hF1, hD1, hO1]
    show ¬ isclose ((8009/1000 : ℚ)) (3001/1000)
    exact not_isclose_of_gt (by norm_num) (by norm_num)
  have hbump1 : bump (![5, 8, 3] : Fin 3 → ℤ)
      ((![0, 1, 2] : Fin 3 → Fin 3) 0) (stepOf false) = ![6, 8, 3] := by
    decide
  have hstop1 : ¬ actualKpd (100/501 * (1000/8009) * (1000/3001) : ℚ)
      (bump (nkptOf (nkpt_frac (![100/501, 1000/8009, 1000/3001] : Fin 3 → ℚ) 1
        (stepOf false)) (stepOf false))
        (argsort3 (delta_ceil (nkpt_frac (![100/501, 1000/8009, 1000/3001] :
          Fin 3 → ℚ) 1 (stepOf false)) (stepOf false)) 0)
        (stepOf false)) < 1 := by
    rw [hF1, hN1, hD1, hO1, hbump1]
    show ¬ (100/501 * (1000/8009) * (1000/3001) : ℚ) *
      (((6 : ℤ) : ℚ) * ((8 : ℤ) : ℚ) * ((3 : ℤ) : ℚ)) < 1
    norm_num
  have he1 := get_kpts_eval_single_bump
    (![100/501, 1000/8009, 1000/3001] : Fin 3 → ℚ)
    (100/501 * (1000/8009) * (1000/3001)) 1 1 false hac1 h011 h121 hstop1
  -- run with target density 1.001 ^ 3 and cube root 1.001
  have hF2 : nkpt_frac (![100/501, 1000/8009, 1000/3001] : Fin 3 → ℚ)
      (1001/1000) (stepOf false) =
      ![501501/100000, 8017009/1000000, 3004001/1000000] := by
    funext i
    rcases fin3_cases i with rfl | rfl | rfl
    · show max ((1001/1000 : ℚ) / (100/501)) ((stepOf false : ℤ) : ℚ) =
        501501/100000
      norm_num [stepOf]
    · show max ((1001/1000 : ℚ) / (1000/8009)) ((stepOf false : ℤ) : ℚ) =
        8017009/1000000
      norm_num [stepOf]
    · show max ((1001/1000 : ℚ) / (1000/3001)) ((stepOf false : ℤ) : ℚ) =
        3004001/1000000
      norm_num [stepOf]
  have hN2 : nkptOf (![501501/100000, 8017009/1000000, 3004001/1000000] :
      Fin 3 → ℚ) (stepOf false) = ![5, 8, 3] := by
    funext i
    rcases fin3_cases i with rfl | rfl | rfl
    · show ⌊(501501/100000 : ℚ) / ((stepOf false : ℤ) : ℚ)⌋ * stepOf false = 5
      norm_num [stepOf]
    · show ⌊(8017009/1000000 : ℚ) / ((stepOf false : ℤ) : ℚ)⌋ * stepOf false = 8
      norm_num [stepOf]
    · show ⌊(3004001/1000000 : ℚ) / ((stepOf false : ℤ) : ℚ)⌋ * stepOf false = 3
      norm_num [stepOf]
  have hD2 : delta_ceil (![501501/100000, 8017009/1000000, 3004001/1000000] :
      Fin 3 → ℚ) (stepOf false) =
      ![98499/100000, 982991/1000000, 995999/1000000] := by
    funext i
    rcases fin3_cases i with rfl | rfl | rfl
    · show ((⌈(501501/100000 : ℚ) / ((stepOf false : ℤ) : ℚ)⌉ *
          stepOf false : ℤ) : ℚ) - 501501/100000 = 98499/100000
      rw [show ((stepOf false : ℤ) : ℚ) = 1 from rfl,
        show (stepOf false : ℤ) = 1 from rfl, div_one, mul_one,
        show ⌈(501501/100000 : ℚ)⌉ = 6 by rw [Int.ceil_eq_iff] <;> norm_num]
      norm_num
    · show ((⌈(8017009/1000000 : ℚ) / ((stepOf false : ℤ) : ℚ)⌉ *
          stepOf false : ℤ) : ℚ) - 8017009/1000000 = 982991/1000000
      rw [show ((stepOf false : ℤ) : ℚ) = 1 from rfl,
        show (stepOf false : ℤ) = 1 from rfl, div_one, mul_one,
        show ⌈(8017009/1000000 : ℚ)⌉ = 9 by rw [Int.ceil_eq_iff] <;> norm_num]
      norm_num
    · show ((⌈(3004001/1000000 : ℚ) / ((stepOf false : ℤ) : ℚ)⌉ *
          stepOf false : ℤ) : ℚ) - 3004001/1000000 = 995999/1000000
      rw [show ((stepOf false : ℤ) : ℚ) = 1 from rfl,
        show (stepOf false : ℤ) = 1 from rfl, div_one, mul_one,
        show ⌈(3004001/1000000 : ℚ)⌉ = 4 by rw [Int.ceil_eq_iff] <;> norm_num]
      norm_num
  have hO2 : argsort3 (![98499/100000, 982991/1000000, 995999/1000000] :
      Fin 3 → ℚ) = ![1, 0, 2] := by
    have hd01 : ¬ (![98499/100000, 982991/1000000, 995999/1000000] :
        Fin 3 → ℚ) 0 ≤ (![98499/100000, 982991/1000000, 995999/1000000] :
        Fin 3 → ℚ) 1 := by
      show ¬ (98499/100000 : ℚ) ≤ 982991/1000000
      norm_num
    have hd02 : (![98499/100000, 982991/1000000, 995999/1000000] :
        Fin 3 → ℚ) 0 ≤ (![98499/100000, 982991/1000000, 995999/1000000] :
        Fin 3 → ℚ) 2 := by
      show (98499/100000 : ℚ) ≤ 995999/1000000
      norm_num
    unfold argsort3
    rw [if_neg hd01, if_pos hd02]
  have hac2 : actualKpd (100/501 * (1000/8009) * (1000/3001) : ℚ)
      (nkptOf (nkpt_frac (![100/501, 1000/8009, 1000/3001] : Fin 3 → ℚ)
        (1001/1000) (stepOf false)) (stepOf false)) < (1001/1000 : ℚ) ^ 3 := by
    rw [hF2, hN2]
    show (100/501 * (1000/8009) * (1000/3001) : ℚ) *
      (((5 : ℤ) : ℚ) * ((8 : ℤ) : ℚ) * ((3 : ℤ) : ℚ)) < (1001/1000 : ℚ) ^ 3
    norm_num
  have h012 : ¬ isclose
      (nkpt_frac (![100/501, 1000/8009, 1000/3001] : Fin 3 → ℚ) (1001/1000)
        (stepOf false)
        (argsort3 (delta_ceil (nkpt_frac (![100/501, 1000/8009, 1000/3001] :
          Fin 3 → ℚ) (1001/1000) (stepOf false)) (stepOf false)) 0))
      (nkpt_frac (![100/501, 1000/8009, 1000/3001] : Fin 3 → ℚ) (1001/1000)
        (stepOf false)
        (argsort3 (delta_ceil (nkpt_frac (![100/501, 1000/8009, 1000/3001] :
          Fin 3 → ℚ) (1001/1000) (stepOf false)) (stepOf false)) 1)) := by
    rw [hF2, hD2, hO2]
    show ¬ isclose ((8017009/1000000 : ℚ)) (501501/100000)
    exact not_isclose_of_gt (by norm_num) (by norm_num)
  have h122 : ¬ isclose
      (nkpt_frac (![100/501, 1000/8009, 1000/3001] : Fin 3 → ℚ) (1001/1000)
        (stepOf false)
        (argsort3 (delta_ceil (nkpt_frac (![100/501, 1000/8009, 1000/3001] :
          Fin 3 → ℚ) (1001/1000) (stepOf false)) (stepOf false)) 1))
      (nkpt_frac (![100/501, 1000/8009, 1000/3001] : Fin 3 → ℚ) (1001/1000)
        (stepOf false)
        (argsort3 (delta_ceil (nkpt_frac (![100/501, 1000/8009, 1000/3001] :
          Fin 3 → ℚ) (1001/1000) (stepOf false)) (stepOf false)) 2)) := by
    rw [hF2, hD2, hO2]
    show ¬ isclose ((501501/100000 : ℚ)) (3004001/1000000)
    exact not_isclose_of_gt (by norm_num) (by norm_num)
  have hbump2 : bump (![5, 8, 3] : Fin 3 → ℤ)
      ((![1, 0, 2] : Fin 3 → Fin 3) 0) (stepOf false) = ![5, 9, 3] := by
    decide
  have hstop2 : ¬ actualKpd (100/501 * (1000/8009) * (1000/3001) : ℚ)
      (bump (nkptOf (nkpt_frac (![100/501, 1000/8009, 1000/3001] : Fin 3 → ℚ)
        (1001/1000) (stepOf false)) (stepOf false))
        (argsort3 (delta_ceil (nkpt_frac (![100/501, 1000/8009, 1000/3001] :
          Fin 3 → ℚ) (1001/1000) (stepOf false)) (stepOf false)) 0)
        (stepOf false)) < (1001/1000 : ℚ) ^ 3 := by
    rw [hF2, hN2, hD2, hO2, hbump2]
    show ¬ (100/501 * (1000/8009) * (1000/3001) : ℚ) *
      (((5 : ℤ) : ℚ) * ((9 : ℤ) : ℚ) * ((3 : ℤ) : ℚ)) < (1001/1000 : ℚ) ^ 3
    norm_num
  have he2 := get_kpts_eval_single_bump
    (![100/501, 1000/8009, 1000/3001] : Fin 3 → ℚ)
    (100/501 * (1000/8009) * (1000/3001)) ((1001/1000 : ℚ) ^ 3) (1001/1000)
    false hac2 h012 h122 hstop2
  refine ⟨⟨?_, by norm_num, by norm_num, by norm_num, ?_, ?_⟩, ?_, ?_⟩
  · intro i
    rcases fin3_cases i with rfl | rfl | rfl
    · show (0 : ℚ) < 100/501
      norm_num
    · show (0 : ℚ) < 1000/8009
      norm_num
    · show (0 : ℚ) < 1000/3001
      norm_num
  · show (1 : ℚ) ^ 3 = 1 / (100/501 * (1000/8009) * (1000/3001)) *
      (100/501 * (1000/8009) * (1000/3001))
    norm_num
  · show (1001/1000 : ℚ) ^ 3 =
      (1001/1000 : ℚ) ^ 3 / (100/501 * (1000/8009) * (1000/3001)) *
      (100/501 * (1000/8009) * (1000/3001))
    norm_num
  · rw [he1, hF1, hN1, hD1, hO1, hbump1]
    decide
  · rw [he2, hF2, hN2, hD2, hO2, hbump2]
    decide

/-- C9: `get_kpts_from_kpd` is a pure function of its arguments; two
calls with identical inputs return identical grids. -/
theorem C9_deterministic (lengths1 lengths2 : Fin 3 → α)
    (vol1 vol2 kpd1 kpd2 mult1 mult2 : α) (oe1 oe2 : Bool)
    (hlen : lengths1 = lengths2) (hvol : vol1 = vol2) (hkpd : kpd1 = kpd2)
    (hmult : mult1 = mult2) (hoe : oe1 = oe2) :
    Kgrid.get_kpts_from_kpd lengths1 vol1 kpd1 mult1 oe1 =
      Kgrid.get_kpts_from_kpd lengths2 vol2 kpd2 mult2 oe2 := by
  subst hlen; subst hvol; subst hkpd; subst hmult; subst hoe; rfl

/-- Witness for C9 at a concrete input. -/
theorem C9_deterministic_witness :
    Kgrid.get_kpts_from_kpd (fun _ => (1 : ℚ)) 1 8 2 false =
      Kgrid.get_kpts_from_kpd (fun _ => (1 : ℚ)) 1 8 2 false :=
  C9_deterministic (fun _ => (1 : ℚ)) (fun _ => (1 : ℚ)) 1 1 8 8 2 2 false false
    rfl rfl rfl rfl rfl

end AmltPolymorph
